import Mathlib

/-!
Shallow embedding of the trajectory-estimation and danger-classification core of
the balloon-dashboard repository (two app variants: `app/utils/balloonUtils.ts`
with its UI callers, and `src/services/balloonService.ts` /
`src/services/weatherService.ts` with `src/components/Map.tsx`).

JavaScript numbers are embedded as rationals (`ℚ`); a raw JSON value that may
fail the `typeof x === 'number' && !isNaN(x)` test is embedded as `Option ℚ`
(`some q` = a finite number, `none` = `NaN` or a non-numeric value).
-/

/-- A `{lat, lon}` point as used by the history matcher and the predictor
(`app/utils/balloonUtils.ts`). -/
structure Coord where
  lat : ℚ
  lon : ℚ
deriving DecidableEq, Repr

/-- A balloon record as produced by `fetchCurrentBalloons`
(`app/utils/balloonUtils.ts`, lines 28-34); the `timestamp` field is wall-clock
noise and is omitted. -/
structure Balloon where
  id : String
  lat : ℚ
  lon : ℚ
  alt : ℚ
deriving DecidableEq, Repr

/-- A weather sample `{temperature, pressure}` (`app/types`, `WeatherData`);
the optional wind fields play no role in the claims below. -/
structure WeatherData where
  temperature : ℚ
  pressure : ℚ
deriving DecidableEq, Repr

/-- A danger verdict `{isDangerous, reason?}` (`app/types`, `DangerCondition`). -/
structure DangerCondition where
  isDangerous : Bool
  reason : Option String
deriving DecidableEq, Repr

/-! ## Strategy A prediction (`predictNextPosition`, balloonUtils.ts 189-202) -/

/-- `predictNextPosition` (`app/utils/balloonUtils.ts`, lines 189-202, identical
in the older variant): with fewer than two positions return `undefined` (here
`none`); otherwise add the delta between the last and second-to-last point to
the last point, component-wise on lat and lon. -/
def predictNextPosition (positions : List Coord) : Option Coord :=
  if h : positions.length < 2 then none
  else
    let last := positions.get ⟨positions.length - 1, by omega⟩
    let secondLast := positions.get ⟨positions.length - 2, by omega⟩
    some { lat := last.lat + (last.lat - secondLast.lat),
           lon := last.lon + (last.lon - secondLast.lon) }

/-- The predicted polyline built by the UI callers (`unnamed/part_003`, line 88;
`unnamed/part_001`, lines 450-452): `[current, prediction]` when a prediction
exists, the empty path otherwise. -/
def mkPredictedPath (current : Coord) (prediction : Option Coord) : List Coord :=
  match prediction with
  | some p => [current, p]
  | none => []

/-! ## Danger classification (`checkDangerConditions`) -/

/-- `checkDangerConditions` (`app/utils/balloonUtils.ts`, lines 175-187):
temperature below −30 °C is reported first, then pressure below 500 hPa.
The source renders the temperature with `toFixed(1)`; the embedding renders
the rational with `toString`, which likewise contains the numeric value. -/
def checkDangerConditions (weather : WeatherData) : DangerCondition :=
  if weather.temperature < -30 then
    { isDangerous := true,
      reason := some ("Extreme cold temperature: " ++ toString weather.temperature ++ "°C") }
  else if weather.pressure < 500 then
    { isDangerous := true,
      reason := some ("Dangerously low pressure: " ++ toString weather.pressure ++ " hPa") }
  else
    { isDangerous := false, reason := none }

/-- `checkDangerConditions` of the older variant (`unnamed/part_005`, lines
134-146): thresholds −40 °C and 300 hPa, fixed reason strings. -/
def checkDangerConditionsLegacy (weather : WeatherData) : DangerCondition :=
  if weather.temperature < -40 then
    { isDangerous := true, reason := some ("Extreme cold temperature") }
  else if weather.pressure < 300 then
    { isDangerous := true, reason := some ("Dangerously low pressure") }
  else
    { isDangerous := false, reason := none }

/-! ## Claim C2 — Strategy A last-delta extrapolation -/

/-- C2: for every path with at least two positions (every such path is of the
form `qs ++ [a, b]`), `predictNextPosition` returns exactly one point equal to
the last point plus the component-wise difference between the last and
second-to-last points on lat and lon; in particular the path
`[(10,20), (11,22)]` yields `(12, 24)`. -/
theorem predictNextPosition_last_delta :
    (∀ (qs : List Coord) (a b : Coord),
      predictNextPosition (qs ++ [a, b]) =
        some { lat := b.lat + (b.lat - a.lat), lon := b.lon + (b.lon - a.lon) }) ∧
    predictNextPosition [⟨10, 20⟩, ⟨11, 22⟩] = some ⟨12, 24⟩ := by
  have main : ∀ (qs : List Coord) (a b : Coord),
      predictNextPosition (qs ++ [a, b]) =
        some { lat := b.lat + (b.lat - a.lat), lon := b.lon + (b.lon - a.lon) } := by
    intro qs a b
    have hlen : (qs ++ [a, b]).length = qs.length + 2 := by simp
    have hnot : ¬ (qs ++ [a, b]).length < 2 := by rw [hlen]; omega
    rw [predictNextPosition, dif_neg hnot]
    have h1 : (qs ++ [a, b]).get ⟨(qs ++ [a, b]).length - 1, by omega⟩ = b := by
      simp [List.get_eq_getElem, hlen]
      rw [List.getElem_append_right (by omega)]
      simp
    have h2 : (qs ++ [a, b]).get ⟨(qs ++ [a, b]).length - 2, by omega⟩ = a := by
      simp [List.get_eq_getElem, hlen]
      rw [List.getElem_append_right (by omega)]
      simp
    simp only [h1, h2]
  refine ⟨main, ?_⟩
  have h := main [] ⟨10, 20⟩ ⟨11, 22⟩
  simp only [List.nil_append] at h
  rw [h]
  norm_num

/-! ## Claim C8 — Strategy A precondition -/

/-- C8: for every path with fewer than two positions, `predictNextPosition`
returns the explicit unavailable result (`none`, the embedding of `undefined`)
rather than raising an error, and consequently the predicted polyline built by
the UI callers is empty. -/
theorem predictNextPosition_short_path (positions : List Coord)
    (h : positions.length < 2) :
    predictNextPosition positions = none ∧
    ∀ current : Coord, mkPredictedPath current (predictNextPosition positions) = [] := by
  have hp : predictNextPosition positions = none := by
    rw [predictNextPosition, dif_pos h]
  exact ⟨hp, fun current => by rw [hp]; rfl⟩

/-- Witness for C8 at the concrete single-point path `[(10, 20)]`. -/
theorem predictNextPosition_short_path_witness :
    predictNextPosition [⟨10, 20⟩] = none ∧
    mkPredictedPath ⟨0, 0⟩ (predictNextPosition [⟨10, 20⟩]) = [] := by
  have h := predictNextPosition_short_path [⟨10, 20⟩] (by simp)
  exact ⟨h.1, h.2 ⟨0, 0⟩⟩

/-! ## Claim C3 — danger classification -/

/-- C3: `checkDangerConditions` flags a sample as dangerous exactly when the
temperature is below −30 °C or the pressure is below 500 hPa; the temperature
condition is evaluated first, so when it holds the surfaced reason is the
extreme-cold reason carrying the temperature value, and the low-pressure
reason is surfaced only when the temperature condition fails. -/
theorem checkDangerConditions_spec (weather : WeatherData) :
    ((checkDangerConditions weather).isDangerous = true ↔
      (weather.temperature < -30 ∨ weather.pressure < 500)) ∧
    (weather.temperature < -30 →
      checkDangerConditions weather =
        { isDangerous := true,
          reason := some ("Extreme cold temperature: " ++ toString weather.temperature ++ "°C") }) ∧
    (¬ weather.temperature < -30 → weather.pressure < 500 →
      checkDangerConditions weather =
        { isDangerous := true,
          reason := some ("Dangerously low pressure: " ++ toString weather.pressure ++ " hPa") }) ∧
    (¬ weather.temperature < -30 → ¬ weather.pressure < 500 →
      checkDangerConditions weather = { isDangerous := false, reason := none }) := by
  unfold checkDangerConditions
  by_cases ht : weather.temperature < -30
  · simp [ht]
  · by_cases hp : weather.pressure < 500 <;> simp [ht, hp]

/-- Witness for C3 at the concrete sample `{temperature := -35, pressure := 1000}`:
the verdict is dangerous and the surfaced reason is the extreme-cold reason,
whose text contains the temperature value "-35". -/
theorem checkDangerConditions_spec_witness :
    (checkDangerConditions ⟨-35, 1000⟩).isDangerous = true ∧
    (checkDangerConditions ⟨-35, 1000⟩).reason =
      some ("Extreme cold temperature: -35°C") := by
  have h := (checkDangerConditions_spec ⟨-35, 1000⟩).2.1 (by norm_num)
  rw [h]
  exact ⟨rfl, rfl⟩

/-! ## Snapshot ingestion

Two ingestion paths exist in the repository.

`src/services/balloonService.ts` (the mapbox variant): `fetchWithRetry` filters
the raw array with `isValidCoordinate` (line 26, `data.filter(isValidCoordinate)`),
which requires an array of exactly three finite numbers with the FIRST component
(`lng`) in [−180, 180] and the SECOND (`lat`) in [−90, 90].

`app/utils/balloonUtils.ts` (the leaflet variant): `fetchCurrentBalloons`
(lines 18-35) maps each raw entry through `Number`, destructures it as
`[lat, lon, alt]` — binding the FIRST component to `lat` — drops entries that
are shorter than three elements or contain `NaN`, performs no range check, and
assigns ids `balloon-|index+1|` from the pre-filter index.

A raw component is `Option ℚ`: `some q` stands for a value that is (or, on the
`Number`-coercing path, coerces to) a finite number `q`; `none` stands for
`NaN` or a non-numeric value. -/

/-- `isValidCoordinate` (`src/services/balloonService.ts`, lines 5-13): the
wildcard row covers the `coord.length !== 3` and non-finite-component
rejections of the source. -/
def isValidCoordinate (coord : List (Option ℚ)) : Bool :=
  match coord with
  | [some lng, some lat, some _] =>
      decide (-180 ≤ lng) && decide (lng ≤ 180) &&
      decide (-90 ≤ lat) && decide (lat ≤ 90)
  | _ => false

/-- The ingestion step of `fetchWithRetry` (`src/services/balloonService.ts`,
line 26): `data.filter(isValidCoordinate)`; the spec calls this operation
`ingestSnapshot`. -/
def ingestSnapshot (data : List (List (Option ℚ))) : List (List (Option ℚ)) :=
  data.filter isValidCoordinate

/-- The per-entry body of `fetchCurrentBalloons` (`app/utils/balloonUtils.ts`,
lines 18-34): `const [lat, lon, alt] = balloon.map(Number)` binds the first
component to `lat`; entries shorter than three elements or with a `NaN`
among the first three are rejected (the cons patterns subsume the
`balloon.length < 3` and `isNaN` tests). -/
def parseBalloon (index : ℕ) (entry : List (Option ℚ)) : Option Balloon :=
  match entry with
  | some lat :: some lon :: some alt :: _ =>
      some { id := "balloon-" ++ toString (index + 1), lat := lat, lon := lon, alt := alt }
  | _ => none

/-- `fetchCurrentBalloons` (`app/utils/balloonUtils.ts`, lines 18-35): map over
the raw entries with the pre-filter index, then drop the `null`s
(`map` + `filter` = `filterMap`). -/
def fetchCurrentBalloons (data : List (List (Option ℚ))) : List Balloon :=
  data.enum.filterMap fun ie => parseBalloon ie.1 ie.2

/-! ## Claim C4 — ingestion drops exactly the invalid triples -/

/-- C4: `ingestSnapshot` keeps the input order (its output is a sublist of the
input, so surviving values are the unmodified input values — nothing is
coerced), its output length is the count of triples passing the range/finite
check, and a triple survives exactly when it is an input triple passing the
check. -/
theorem ingestSnapshot_filters (data : List (List (Option ℚ))) :
    (ingestSnapshot data).Sublist data ∧
    (ingestSnapshot data).length = data.countP isValidCoordinate ∧
    ∀ c, c ∈ ingestSnapshot data ↔ c ∈ data ∧ isValidCoordinate c = true := by
  refine ⟨List.filter_sublist data, ?_, fun c => List.mem_filter⟩
  rw [List.countP_eq_length_filter]
  rfl

/-- Witness for C4 on a concrete snapshot: of the two raw triples, the first
(valid) survives and the second (longitude 200 out of range) is dropped. -/
theorem ingestSnapshot_filters_witness :
    ingestSnapshot [[some 10, some 20, some 0], [some 200, some 10, some 0]] =
      [[some 10, some 20, some 0]] ∧
    (ingestSnapshot [[some 10, some 20, some 0], [some 200, some 10, some 0]]).length =
      List.countP isValidCoordinate [[some 10, some 20, some 0], [some 200, some 10, some 0]] := by
  have h := ingestSnapshot_filters [[some 10, some 20, some 0], [some 200, some 10, some 0]]
  refine ⟨?_, h.2.1⟩
  have hv : isValidCoordinate [some 10, some 20, some 0] = true := by
    simp only [isValidCoordinate]
    norm_num
  have hi : isValidCoordinate [some 200, some 10, some 0] = false := by
    simp only [isValidCoordinate]
    norm_num
  simp [ingestSnapshot, List.filter, hv, hi]

/-! ## Claim C5 — component binding of raw triples -/

/-- C5 counterexample: ingest the single raw triple `[100, 50, 0]` through
`fetchCurrentBalloons`. The claim binds the first component (100) to
longitude; the code instead binds it to latitude: the ingested balloon has
`lat = 100` and `lon = 50 ≠ 100`. -/
theorem fetchCurrentBalloons_binds_first_to_lat :
    (fetchCurrentBalloons [[some 100, some 50, some 0]]).map
      (fun b => (b.lat, b.lon)) = [((100 : ℚ), (50 : ℚ))] ∧
    (100 : ℚ) ≠ 50 := by
  constructor
  · rfl
  · norm_num

/-- C5 amended: the balloonService variant's validity check does treat the
first component as longitude (range ±180) and the second as latitude (range
±90), but the balloonUtils variant's `fetchCurrentBalloons` binds the first
component of each ingested triple to `lat` and the second to `lon`. -/
theorem rawTriple_component_binding :
    (∀ lng lat alt : ℚ,
      isValidCoordinate [some lng, some lat, some alt] = true ↔
        (-180 ≤ lng ∧ lng ≤ 180 ∧ -90 ≤ lat ∧ lat ≤ 90)) ∧
    (∀ a b c : ℚ,
      fetchCurrentBalloons [[some a, some b, some c]] =
        [{ id := "balloon-1", lat := a, lon := b, alt := c }]) := by
  constructor
  · intro lng lat alt
    simp [isValidCoordinate, and_assoc]
  · intro a b c
    simp only [fetchCurrentBalloons, parseBalloon, List.enum, List.enumFrom,
      List.filterMap]
    rfl

/-- Witness for the amended C5: the validity check accepts longitude 100 in
first position (and `fetchCurrentBalloons` files the same first component
under `lat`). -/
theorem rawTriple_component_binding_witness :
    isValidCoordinate [some 100, some 50, some 0] = true ∧
    fetchCurrentBalloons [[some 100, some 50, some 0]] =
      [{ id := "balloon-1", lat := 100, lon := 50, alt := 0 }] := by
  refine ⟨(rawTriple_component_binding.1 100 50 0).mpr (by norm_num), ?_⟩
  exact rawTriple_component_binding.2 100 50 0

/-! ## Weather fetch (`fetchWeatherData`, balloonUtils.ts 115-173)

The body of `fetchWeatherData` sits inside one `try { ... } catch` whose
handler returns `{temperature: 20, pressure: 1013}`. The embedding splits the
body into a fallible attempt (`Except`) and the surrounding catch. A run of
the body is determined by whether the API key is configured and by the
upstream outcome. -/

/-- The possible upstream outcomes of the weather HTTP call. -/
inductive FetchOutcome where
  | networkError
  | httpError (status : ℕ)
  | malformedJson
  | payload (main : Option (Option ℚ × Option ℚ))
deriving DecidableEq, Repr

/-- JavaScript truthiness of `data.main?.temp` / `data.main?.pressure`: the
field must be present and non-zero (`!x` is true for `undefined` and `0`). -/
def truthyNum : Option ℚ → Bool
  | none => false
  | some q => decide (q ≠ 0)

/-- The fallible body of `fetchWeatherData` (`app/utils/balloonUtils.ts`,
lines 116-165): missing API key, network error, non-2xx status (with the 429
special case), malformed JSON, and a payload lacking truthy
`main.temp`/`main.pressure` all throw; otherwise the two fields are returned.
The rate-limiter wait (lines 122-135) cannot throw and does not affect the
value. -/
def fetchWeatherAttempt (apiKey : Option String) (o : FetchOutcome) :
    Except String WeatherData :=
  match apiKey with
  | none => Except.error ("Weather API key is not configured")
  | some _ =>
    match o with
    | FetchOutcome.networkError => Except.error ("network error")
    | FetchOutcome.httpError status =>
        if status = 429 then Except.error ("Weather API rate limit exceeded")
        else Except.error ("Weather API request failed")
    | FetchOutcome.malformedJson => Except.error ("Invalid JSON")
    | FetchOutcome.payload main =>
      match main with
      | none => Except.error ("Invalid weather data format")
      | some (t, p) =>
        if truthyNum t && truthyNum p then
          Except.ok { temperature := t.getD 0, pressure := p.getD 0 }
        else Except.error ("Invalid weather data format")

/-- `fetchWeatherData` (`app/utils/balloonUtils.ts`, lines 115-173): the
`catch` handler (lines 166-172) maps every thrown error to the fixed default
`{temperature: 20, pressure: 1013}`; the function therefore always returns a
`WeatherData`, never an error. -/
def fetchWeatherData (apiKey : Option String) (o : FetchOutcome) : WeatherData :=
  match fetchWeatherAttempt apiKey o with
  | Except.ok w => w
  | Except.error _ => { temperature := 20, pressure := 1013 }

/-! ## Claim C7 — fetchWeatherData never propagates an error -/

/-- C7: whenever the body of `fetchWeatherData` fails — and it does fail on a
missing API key, a network error, any non-2xx status, malformed JSON, and a
payload without truthy weather fields — the caller receives the fixed default
`{temperature: 20, pressure: 1013}` instead of an error (the embedding's total
return type reflects the all-enclosing `try`/`catch` of the source). -/
theorem fetchWeatherData_error_fallback (apiKey : Option String) (o : FetchOutcome) :
    (∀ e, fetchWeatherAttempt apiKey o = Except.error e →
      fetchWeatherData apiKey o = { temperature := 20, pressure := 1013 }) ∧
    (∃ e, fetchWeatherAttempt none o = Except.error e) ∧
    (∀ k, ∃ e, fetchWeatherAttempt (some k) FetchOutcome.networkError = Except.error e) ∧
    (∀ k s, ∃ e, fetchWeatherAttempt (some k) (FetchOutcome.httpError s) = Except.error e) ∧
    (∀ k, ∃ e, fetchWeatherAttempt (some k) FetchOutcome.malformedJson = Except.error e) ∧
    (∀ k, ∃ e, fetchWeatherAttempt (some k) (FetchOutcome.payload none) = Except.error e) := by
  refine ⟨fun e he => ?_, ⟨_, rfl⟩, fun k => ⟨_, rfl⟩, fun k s => ?_,
    fun k => ⟨_, rfl⟩, fun k => ⟨_, rfl⟩⟩
  · rw [fetchWeatherData, he]
  · by_cases h : s = 429 <;> simp [fetchWeatherAttempt, h]

/-- Witness for C7: with no API key configured and a network error, the caller
receives the default sample. -/
theorem fetchWeatherData_error_fallback_witness :
    fetchWeatherData none FetchOutcome.networkError =
      { temperature := 20, pressure := 1013 } :=
  (fetchWeatherData_error_fallback none FetchOutcome.networkError).1 _ rfl

/-! ## Claim C10 — fallback weather samples are classified safe -/

/-- The hardcoded weather sample substituted by the UI fan-out when
`fetchWeatherData` itself rejects (`unnamed/part_001`, line 400). -/
def uiFallbackWeather : WeatherData :=
  { temperature := -20, pressure := 500 }

/-- C10: every fallback weather sample the code substitutes on a failed
weather fetch is classified as not dangerous: whenever the body of
`fetchWeatherData` fails, its default result passes both classifier variants
with `isDangerous = false` and no reason, and the UI fan-out's own fallback
`{temperature: -20, pressure: 500}` likewise passes both variants (500 hPa is
not strictly below the 500 hPa threshold). An upstream weather failure alone
therefore never produces a danger warning. -/
theorem fallbackWeather_not_dangerous :
    (∀ (apiKey : Option String) (o : FetchOutcome) e,
      fetchWeatherAttempt apiKey o = Except.error e →
        checkDangerConditions (fetchWeatherData apiKey o) =
          { isDangerous := false, reason := none } ∧
        checkDangerConditionsLegacy (fetchWeatherData apiKey o) =
          { isDangerous := false, reason := none }) ∧
    checkDangerConditions uiFallbackWeather = { isDangerous := false, reason := none } ∧
    checkDangerConditionsLegacy uiFallbackWeather = { isDangerous := false, reason := none } := by
  refine ⟨fun apiKey o e he => ?_, ?_, ?_⟩
  · have hd : fetchWeatherData apiKey o = { temperature := 20, pressure := 1013 } := by
      rw [fetchWeatherData, he]
    rw [hd]
    constructor
    · simp [checkDangerConditions]
      norm_num
    · simp [checkDangerConditionsLegacy]
      norm_num
  · simp [checkDangerConditions, uiFallbackWeather]
    norm_num
  · simp [checkDangerConditionsLegacy, uiFallbackWeather]
    norm_num

/-- Witness for C10: a missing API key yields the default sample, and both
classifier variants mark it safe. -/
theorem fallbackWeather_not_dangerous_witness :
    checkDangerConditions (fetchWeatherData none FetchOutcome.networkError) =
      { isDangerous := false, reason := none } ∧
    checkDangerConditionsLegacy (fetchWeatherData none FetchOutcome.networkError) =
      { isDangerous := false, reason := none } :=
  fallbackWeather_not_dangerous.1 none FetchOutcome.networkError _ rfl

/-! ## Claim C9 — Strategy B wind-drift displacement

Modelled from the spec: no wind-drift extrapolation exists anywhere under
`src/`; §4.3 of the spec (Strategy B) defines the per-step displacement
`dLon = sin(directionDeg_in_radians) * speed * k`,
`dLat = cos(directionDeg_in_radians) * speed * k` with the fixed scale factor
`k = 0.001`. -/

/-- Modelled from the spec: the Strategy B per-step displacement `(dLat, dLon)`
for a wind sample `(speed, directionDeg)`, with scale factor `k = 0.001`
(missing from src/; spec §4.3). -/
noncomputable def windDriftDisplacement (speed directionDeg : ℝ) : ℝ × ℝ :=
  let rad := directionDeg * Real.pi / 180
  (Real.cos rad * speed * (1 / 1000), Real.sin rad * speed * (1 / 1000))

/-- C9: with `speed = 0` the wind-drift displacement is zero on both lat and
lon, for every wind direction. -/
theorem windDriftDisplacement_zero_speed (directionDeg : ℝ) :
    windDriftDisplacement 0 directionDeg = (0, 0) := by
  simp [windDriftDisplacement]

/-! ## Rate limiter (`fetchWeatherData`, balloonUtils.ts 111-135)

The limiter state is the module-level dictionary `weatherRequestQueue`
mapping a rounded-coordinate key to the instant the last request for that key
was issued. A call with start instant `s`:

1. computes its key by rounding both coordinates to 2 decimals (lines 123-125),
2. reads `weatherRequestQueue[locationKey] || 0` — synchronously, no `await`
   precedes this read (lines 128-129),
3. if `s − lastRequestTime < 1000` awaits the remainder, so that it resumes at
   `lastRequestTime + 1000` (lines 130-132),
4. then writes `weatherRequestQueue[locationKey] = Date.now()` and dispatches
   the fetch (lines 135-145) — at instant `lastRequestTime + 1000` if it
   waited, at `s` otherwise.

In the single-threaded cooperative model, a write performed at instant `d` is
visible to every read at a later instant, and the dictionary entry holds the
largest write instant so far (a write at `d` stores the value `d`). The model
below processes calls in strictly increasing start order; each call reads the
latest same-key write instant that is ≤ its start instant (0 when none,
mirroring `|| 0`). Times are milliseconds as rationals. -/

/-- JavaScript `Math.round`: round half toward +∞, i.e. `⌊x + 1/2⌋`. -/
def jsRound (q : ℚ) : ℤ :=
  ⌊q + 1 / 2⌋

/-- The rounded-coordinate key (lines 123-125): both coordinates rounded to two
decimal places. Two template strings `` `${roundedLat},${roundedLon}` `` are
equal exactly when these rational pairs are equal. -/
def locationKey (lat lon : ℚ) : ℚ × ℚ :=
  ((jsRound (lat * 100) : ℚ) / 100, (jsRound (lon * 100) : ℚ) / 100)

/-- One call to `fetchWeatherData`: its start instant and raw coordinates. -/
structure WeatherCall where
  start : ℚ
  lat : ℚ
  lon : ℚ
deriving DecidableEq, Repr

/-- `weatherRequestQueue[key] || 0` as read at instant `t`: the largest
same-key write instant ≤ `t`, or 0 when there is none. -/
def lastRequestTime (writes : List ((ℚ × ℚ) × ℚ)) (key : ℚ × ℚ) (t : ℚ) : ℚ :=
  (writes.filter fun w => decide (w.1 = key ∧ w.2 ≤ t)).foldr
    (fun w m => max w.2 m) 0

/-- The cooperative execution of a list of `fetchWeatherData` calls in strictly
increasing start order, accumulating the `weatherRequestQueue` writes: each
call reads its key's last-issued instant at its start, waits out the remainder
of the 1000 ms cooldown when needed, and then writes the dictionary and
dispatches. Returns each call's `(key, dispatch instant)`. -/
def dispatchSchedule : List WeatherCall → List ((ℚ × ℚ) × ℚ) → List ((ℚ × ℚ) × ℚ)
  | [], _ => []
  | c :: rest, writes =>
    let key := locationKey c.lat c.lon
    let t0 := lastRequestTime writes key c.start
    let d := if c.start - t0 < 1000 then t0 + 1000 else c.start
    (key, d) :: dispatchSchedule rest ((key, d) :: writes)

/-- The dispatch schedule of a batch of calls against an initially empty
`weatherRequestQueue`. -/
def weatherDispatches (calls : List WeatherCall) : List ((ℚ × ℚ) × ℚ) :=
  dispatchSchedule calls []

/-- C6 failing input: three same-coordinate calls starting at 2000 ms, 2100 ms
and 2200 ms. The first dispatches immediately and stamps the queue at 2000;
the second and the third both start inside the first call's cooldown window,
both read the stale stamp 2000 (the second call only writes its own stamp when
its timer fires at 3000, after the third call has already read), and both
dispatch at 3000. The second and third calls start within 1000 ms of each
other, yet their underlying fetch dispatches are 0 ms apart — not the ≥1000 ms
the claim requires. -/
theorem weatherDispatches_gap_violation :
    (weatherDispatches
        [⟨2000, 10, 20⟩, ⟨2100, 10, 20⟩, ⟨2200, 10, 20⟩]).map Prod.snd =
      [2000, 3000, 3000] ∧
    (2200 : ℚ) - 2100 < 1000 ∧ (3000 : ℚ) - 3000 < 1000 := by
  refine ⟨?_, by norm_num, by norm_num⟩
  norm_num [weatherDispatches, dispatchSchedule, lastRequestTime,
    List.filter_cons, max_def]

/-! ## History matching (`fetchBalloonHistory`, balloonUtils.ts 44-109)

For one snapshot (one past hour), lines 62-89: iterate over the snapshot's
positions in order, tracking the closest-so-far position and its distance
(`minDistance`, initially `Infinity`); a position replaces the tracked one only
when its distance is strictly smaller, so the first position attaining the
minimum is kept on ties; the tracked position is accepted only when
`minDistance < 5` and otherwise the snapshot contributes nothing.

The source compares square-rooted Euclidean degree-space distances. The
square root is strictly monotone on nonnegative reals, so every comparison is
performed here on the squared distance, with the threshold 5² = 25; a snapshot
is embedded as the list of its parseable positions (the source skips
non-array, too-short and non-numeric entries, lines 67-69). -/

/-- Squared Euclidean distance in degree-space (the `squaredPlanarDistance` of
the spec; `Math.pow(lat - currentLat, 2) + Math.pow(lon - currentLon, 2)` on
lines 70-73 of balloonUtils.ts, before the monotone `Math.sqrt`). -/
def squaredPlanarDistance (target p : Coord) : ℚ :=
  (p.lat - target.lat) ^ 2 + (p.lon - target.lon) ^ 2

/-- The closest-position loop (balloonUtils.ts, lines 63-80): fold over the
snapshot, keeping the tracked `(closestPosition, minDistance)` pair; `none`
stands for the initial `(null, Infinity)` state, which any position beats. -/
def closestLoop (target : Coord) : List Coord → Option (Coord × ℚ) → Option (Coord × ℚ)
  | [], acc => acc
  | p :: rest, acc =>
    match acc with
    | none => closestLoop target rest (some (p, squaredPlanarDistance target p))
    | some (q, m) =>
      if squaredPlanarDistance target p < m then
        closestLoop target rest (some (p, squaredPlanarDistance target p))
      else
        closestLoop target rest (some (q, m))

/-- The per-snapshot match (balloonUtils.ts, lines 61-89): run the
closest-position loop and accept the result only when the minimum (squared)
distance is strictly below the (squared) 5-degree threshold. -/
def matchSnapshot (target : Coord) (cs : List Coord) : Option Coord :=
  match closestLoop target cs none with
  | some (p, m) => if m < 25 then some p else none
  | none => none

/-- `fetchBalloonHistory` (balloonUtils.ts, lines 44-109), restricted to its
per-snapshot selection: each snapshot contributes its match, if any. The
source additionally tags each accepted point with a synthesized timestamp
`now − hour·3600000` and sorts the accepted points by those timestamps;
that reordering across snapshots is irrelevant to which point each snapshot
contributes. -/
def fetchBalloonHistory (target : Coord) (snapshots : List (List Coord)) : List Coord :=
  snapshots.filterMap (matchSnapshot target)

/-- Characterization of the closest-position loop started from a tracked pair
`(q₀, m₀)`: it returns the tracked pair unchanged when nothing beats `m₀`,
and otherwise the first strict improvement chain winner — the element whose
distance is strictly below `m₀` and below everything before it, and at most
everything after it. -/
theorem closestLoop_acc_spec (target : Coord) (cs : List Coord) :
    ∀ (q₀ : Coord) (m₀ : ℚ) (p : Coord) (m : ℚ),
    closestLoop target cs (some (q₀, m₀)) = some (p, m) ↔
      (p = q₀ ∧ m = m₀ ∧ ∀ q ∈ cs, m₀ ≤ squaredPlanarDistance target q) ∨
      (m = squaredPlanarDistance target p ∧ m < m₀ ∧
        ∃ l₁ l₂, cs = l₁ ++ p :: l₂ ∧
          (∀ q ∈ l₁, m < squaredPlanarDistance target q) ∧
          (∀ q ∈ l₂, m ≤ squaredPlanarDistance target q)) := by
  induction cs with
  | nil =>
    intro q₀ m₀ p m
    simp only [closestLoop, Option.some.injEq, Prod.mk.injEq]
    constructor
    · rintro ⟨rfl, rfl⟩
      exact Or.inl ⟨rfl, rfl, by simp⟩
    · rintro (⟨rfl, rfl, -⟩ | ⟨-, -, l₁, l₂, hsplit, -, -⟩)
      · exact ⟨rfl, rfl⟩
      · exact absurd hsplit (by simp)
  | cons c rest ih =>
    intro q₀ m₀ p m
    simp only [closestLoop]
    by_cases h : squaredPlanarDistance target c < m₀
    · rw [if_pos h, ih]
      constructor
      · rintro (⟨rfl, rfl, hall⟩ | ⟨hm, hlt, l₁, l₂, rfl, h₁, h₂⟩)
        · exact Or.inr ⟨rfl, h, [], rest, rfl, by simp, hall⟩
        · refine Or.inr ⟨hm, lt_trans hlt h, c :: l₁, l₂, rfl, ?_, h₂⟩
          intro q hq
          rcases List.mem_cons.mp hq with rfl | hq
          · exact hlt
          · exact h₁ q hq
      · rintro (⟨rfl, rfl, hall⟩ | ⟨hm, hlt, l₁, l₂, hsplit, h₁, h₂⟩)
        · exact absurd (hall c (List.mem_cons_self c rest)) (not_le.mpr h)
        · cases l₁ with
          | nil =>
            simp only [List.nil_append, List.cons.injEq] at hsplit
            obtain ⟨rfl, rfl⟩ := hsplit
            exact Or.inl ⟨rfl, hm, fun q hq => hm ▸ h₂ q hq⟩
          | cons x l₁ =>
            simp only [List.cons_append, List.cons.injEq] at hsplit
            obtain ⟨rfl, rfl⟩ := hsplit
            refine Or.inr ⟨hm, h₁ c (List.mem_cons_self c l₁), l₁, l₂, rfl, ?_, h₂⟩
            exact fun q hq => h₁ q (List.mem_cons_of_mem c hq)
    · rw [if_neg h, ih]
      push_neg at h
      constructor
      · rintro (⟨rfl, rfl, hall⟩ | ⟨hm, hlt, l₁, l₂, rfl, h₁, h₂⟩)
        · refine Or.inl ⟨rfl, rfl, ?_⟩
          intro q hq
          rcases List.mem_cons.mp hq with rfl | hq
          · exact h
          · exact hall q hq
        · refine Or.inr ⟨hm, hlt, c :: l₁, l₂, rfl, ?_, h₂⟩
          intro q hq
          rcases List.mem_cons.mp hq with rfl | hq
          · exact lt_of_lt_of_le hlt h
          · exact h₁ q hq
      · rintro (⟨rfl, rfl, hall⟩ | ⟨hm, hlt, l₁, l₂, hsplit, h₁, h₂⟩)
        · exact Or.inl ⟨rfl, rfl, fun q hq => hall q (List.mem_cons_of_mem c hq)⟩
        · cases l₁ with
          | nil =>
            simp only [List.nil_append, List.cons.injEq] at hsplit
            obtain ⟨rfl, rfl⟩ := hsplit
            exact absurd (hm ▸ hlt) (not_lt.mpr h)
          | cons x l₁ =>
            simp only [List.cons_append, List.cons.injEq] at hsplit
            obtain ⟨rfl, rfl⟩ := hsplit
            refine Or.inr ⟨hm, hlt, l₁, l₂, rfl, ?_, h₂⟩
            exact fun q hq => h₁ q (List.mem_cons_of_mem c hq)

/-- Characterization of the loop from the initial `(null, Infinity)` state:
the result is the first element attaining the minimum distance, paired with
that distance. -/
theorem closestLoop_none_spec (target : Coord) (cs : List Coord) (p : Coord) (m : ℚ) :
    closestLoop target cs none = some (p, m) ↔
      m = squaredPlanarDistance target p ∧
      ∃ l₁ l₂, cs = l₁ ++ p :: l₂ ∧
        (∀ q ∈ l₁, m < squaredPlanarDistance target q) ∧
        (∀ q ∈ l₂, m ≤ squaredPlanarDistance target q) := by
  cases cs with
  | nil =>
    simp only [closestLoop]
    constructor
    · intro h
      exact absurd h (by simp)
    · rintro ⟨-, l₁, l₂, hsplit, -, -⟩
      exact absurd hsplit (by simp)
  | cons c rest =>
    have hstep : closestLoop target (c :: rest) none =
        closestLoop target rest (some (c, squaredPlanarDistance target c)) := rfl
    rw [hstep, closestLoop_acc_spec]
    constructor
    · rintro (⟨rfl, rfl, hall⟩ | ⟨hm, hlt, l₁, l₂, rfl, h₁, h₂⟩)
      · exact ⟨rfl, [], rest, rfl, by simp, hall⟩
      · refine ⟨hm, c :: l₁, l₂, rfl, ?_, h₂⟩
        intro q hq
        rcases List.mem_cons.mp hq with rfl | hq
        · exact hlt
        · exact h₁ q hq
    · rintro ⟨hm, l₁, l₂, hsplit, h₁, h₂⟩
      cases l₁ with
      | nil =>
        simp only [List.nil_append, List.cons.injEq] at hsplit
        obtain ⟨rfl, rfl⟩ := hsplit
        exact Or.inl ⟨rfl, hm, fun q hq => hm ▸ h₂ q hq⟩
      | cons x l₁ =>
        simp only [List.cons_append, List.cons.injEq] at hsplit
        obtain ⟨rfl, rfl⟩ := hsplit
        refine Or.inr ⟨hm, h₁ c (List.mem_cons_self c l₁), l₁, l₂, rfl, ?_, h₂⟩
        exact fun q hq => h₁ q (List.mem_cons_of_mem c hq)

/-- Uniqueness of the first-minimum decomposition: an element strictly better
than everything before it and at most everything after it is unique. -/
theorem firstMin_unique (target : Coord) (l₁ l₂ l₃ l₄ : List Coord) (p q : Coord)
    (h : l₁ ++ p :: l₂ = l₃ ++ q :: l₄)
    (hp₁ : ∀ r ∈ l₁, squaredPlanarDistance target p < squaredPlanarDistance target r)
    (hp₂ : ∀ r ∈ l₂, squaredPlanarDistance target p ≤ squaredPlanarDistance target r)
    (hq₁ : ∀ r ∈ l₃, squaredPlanarDistance target q < squaredPlanarDistance target r)
    (hq₂ : ∀ r ∈ l₄, squaredPlanarDistance target q ≤ squaredPlanarDistance target r) :
    p = q := by
  rcases List.append_eq_append_iff.mp h with ⟨a, ha, hb⟩ | ⟨a, ha, hb⟩
  · cases a with
    | nil =>
      simp only [List.append_nil] at ha
      simp only [List.nil_append, List.cons.injEq] at hb
      exact hb.1
    | cons x a =>
      simp only [List.cons_append, List.cons.injEq] at hb
      obtain ⟨rfl, rfl⟩ := hb
      have hpq : squaredPlanarDistance target q < squaredPlanarDistance target p :=
        hq₁ p (ha ▸ List.mem_append_right l₁ (List.mem_cons_self p a))
      have hqp : squaredPlanarDistance target p ≤ squaredPlanarDistance target q :=
        hp₂ q (List.mem_append_right a (List.mem_cons_self q l₄))
      exact absurd hpq (not_lt.mpr hqp)
  · cases a with
    | nil =>
      simp only [List.append_nil] at ha
      simp only [List.nil_append, List.cons.injEq] at hb
      exact hb.1.symm
    | cons x a =>
      simp only [List.cons_append, List.cons.injEq] at hb
      obtain ⟨rfl, rfl⟩ := hb
      have hqp : squaredPlanarDistance target p < squaredPlanarDistance target q :=
        hp₁ q (ha ▸ List.mem_append_right l₃ (List.mem_cons_self q a))
      have hpq : squaredPlanarDistance target q ≤ squaredPlanarDistance target p :=
        hq₂ p (List.mem_append_right a (List.mem_cons_self p l₂))
      exact absurd hqp (not_lt.mpr hpq)

/-- Full characterization of the per-snapshot match: the snapshot contributes
`p` exactly when `p` is the first point of the snapshot attaining the minimum
squared distance to the target and that minimum is strictly below 25 = 5². -/
theorem matchSnapshot_spec (target : Coord) (cs : List Coord) (p : Coord) :
    matchSnapshot target cs = some p ↔
      ∃ l₁ l₂, cs = l₁ ++ p :: l₂ ∧
        squaredPlanarDistance target p < 25 ∧
        (∀ q ∈ l₁, squaredPlanarDistance target p < squaredPlanarDistance target q) ∧
        (∀ q ∈ l₂, squaredPlanarDistance target p ≤ squaredPlanarDistance target q) := by
  cases hc : closestLoop target cs none with
  | none =>
    have hmt : matchSnapshot target cs = none := by
      unfold matchSnapshot
      rw [hc]
    constructor
    · intro h
      rw [hmt] at h
      exact absurd h (by simp)
    · rintro ⟨l₁, l₂, rfl, h25, h₁, h₂⟩
      have : closestLoop target (l₁ ++ p :: l₂) none =
          some (p, squaredPlanarDistance target p) :=
        (closestLoop_none_spec target _ p _).mpr ⟨rfl, l₁, l₂, rfl, h₁, h₂⟩
      rw [this] at hc
      exact absurd hc (by simp)
  | some qm =>
    obtain ⟨q, m⟩ := qm
    have hmt : matchSnapshot target cs = if m < 25 then some q else none := by
      unfold matchSnapshot
      rw [hc]
    rw [closestLoop_none_spec] at hc
    obtain ⟨rfl, l₃, l₄, rfl, hq₁, hq₂⟩ := hc
    rw [hmt]
    by_cases h25 : squaredPlanarDistance target q < 25
    · rw [if_pos h25]
      simp only [Option.some.injEq]
      constructor
      · rintro rfl
        exact ⟨l₃, l₄, rfl, h25, hq₁, hq₂⟩
      · rintro ⟨l₁, l₂, hsplit, -, h₁, h₂⟩
        exact (firstMin_unique target l₁ l₂ l₃ l₄ p q hsplit.symm h₁ h₂ hq₁ hq₂).symm
    · rw [if_neg h25]
      simp only [iff_iff_implies_and_implies]
      constructor
      · intro h
        exact absurd h (by simp)
      · rintro ⟨l₁, l₂, hsplit, hp25, h₁, h₂⟩
        have hpq : p = q := firstMin_unique target l₁ l₂ l₃ l₄ p q hsplit.symm h₁ h₂ hq₁ hq₂
        exact absurd (hpq ▸ hp25) h25

/-! ## Claim C1 — history matcher selects the first within-threshold minimum -/

/-- C1: for every target position and list of snapshots, each snapshot of the
history contributes via `matchSnapshot`, and a snapshot contributes the point
`p` exactly when `p` is the first point of that snapshot attaining the minimum
planar degree-space distance to the target (strictly better than every earlier
point, at most every later point — first minimum wins on ties, in snapshot
iteration order) and that minimum is strictly below the 5-degree threshold
(squared distances and threshold 25 = 5², the square root being monotone);
otherwise the snapshot contributes no point. -/
theorem fetchBalloonHistory_first_min (target : Coord) (snapshots : List (List Coord)) :
    fetchBalloonHistory target snapshots = snapshots.filterMap (matchSnapshot target) ∧
    ∀ cs ∈ snapshots, ∀ p,
      matchSnapshot target cs = some p ↔
        ∃ l₁ l₂, cs = l₁ ++ p :: l₂ ∧
          squaredPlanarDistance target p < 25 ∧
          (∀ q ∈ l₁, squaredPlanarDistance target p < squaredPlanarDistance target q) ∧
          (∀ q ∈ l₂, squaredPlanarDistance target p ≤ squaredPlanarDistance target q) :=
  ⟨rfl, fun cs _ p => matchSnapshot_spec target cs p⟩

/-- Witness for C1 on concrete snapshots around the target (0,0): in the first
snapshot, (3,4) is at squared distance 25 (exactly on the threshold, too far)
and the two later points are at squared distance 2, tied — the first of the
two wins; the second snapshot only contains (3,4), whose distance is not
strictly below the threshold, so it contributes nothing. -/
theorem fetchBalloonHistory_first_min_witness :
    matchSnapshot ⟨0, 0⟩ [⟨3, 4⟩, ⟨1, 1⟩, ⟨-1, 1⟩] = some ⟨1, 1⟩ ∧
    matchSnapshot ⟨0, 0⟩ [⟨3, 4⟩] = none := by
  have h := fetchBalloonHistory_first_min ⟨0, 0⟩ [[⟨3, 4⟩, ⟨1, 1⟩, ⟨-1, 1⟩], [⟨3, 4⟩]]
  constructor
  · refine (h.2 [⟨3, 4⟩, ⟨1, 1⟩, ⟨-1, 1⟩] (by simp) ⟨1, 1⟩).mpr
      ⟨[⟨3, 4⟩], [⟨-1, 1⟩], rfl, ?_, ?_, ?_⟩
    · norm_num [squaredPlanarDistance]
    · intro q hq
      simp only [List.mem_singleton] at hq
      subst hq
      norm_num [squaredPlanarDistance]
    · intro q hq
      simp only [List.mem_singleton] at hq
      subst hq
      norm_num [squaredPlanarDistance]
  · cases hm : matchSnapshot ⟨0, 0⟩ [⟨3, 4⟩] with
    | none => rfl
    | some p =>
      exfalso
      obtain ⟨l₁, l₂, hsplit, h25, -, -⟩ :=
        (h.2 [⟨3, 4⟩] (by simp) p).mp hm
      have hp : p = ⟨3, 4⟩ := by
        cases l₁ with
        | nil =>
          simp only [List.nil_append, List.cons.injEq] at hsplit
          exact hsplit.1.symm
        | cons x l₁ =>
          simp only [List.cons_append, List.cons.injEq] at hsplit
          exact absurd hsplit.2 (by simp)
      rw [hp] at h25
      norm_num [squaredPlanarDistance] at h25
